import Mathlib

set_option maxRecDepth 8000

/-!
Verification development for the MedAssist AI service
(`src/ai-service/app/services/`).  The Python modules `triage_scorer.py`,
`safety_validator.py`, `intent_classifier.py`, `slot_filler.py` and
`symptom_intake.py` are shallowly embedded below: each Python function is
translated into an executable Lean definition, with Python dictionaries
modelled as `String → Option PyVal` maps, Python numbers as `ℚ`/`ℤ`, and
the deterministic rule-based paths (the paths taken when no LLM client is
configured, `use_llm = False`) modelled directly.  The LLM call of the
intent classifier is modelled as an explicit oracle string parameter: the
embedded `classify` receives the raw model output text, so quantifying over
that parameter quantifies over everything the conversation history and
metadata can influence.

Modelling notes, applying throughout:
* `str.lower()` is modelled by the characterwise `pyLower` (ASCII lowering; every
  configured keyword phrase is ASCII).
* Python truthiness of an optional number (`if temp:`) is modelled by
  "present and nonzero"; of a list, by nonemptiness.
* `vital_signs`/`patient_metadata` are `Option` records: the Python guard
  `if vital_signs:` also skips an empty dict, whose contribution would be
  0 anyway, so the result is unchanged.
* Timestamps (`SafetyResult.timestamp`) and logging side effects are not
  modelled; no claim mentions them.
-/

/-- Python `needle in haystack` on lists of characters: `needle` occurs as a
contiguous substring.  The empty needle matches everywhere, as in Python. -/
def infixOf (needle : List Char) : List Char → Bool
  | [] => needle.isEmpty
  | c :: rest => needle.isPrefixOf (c :: rest) || infixOf needle rest

/-- Python `needle in haystack` for strings (substring containment). -/
def strContains (hay needle : String) : Bool :=
  infixOf needle.toList hay.toList

/-- Python `int()` applied to a rational: truncation toward zero
(`tdiv` of the numerator by the positive denominator). -/
def pyTrunc (q : ℚ) : ℤ :=
  q.num.tdiv q.den

/-- Half of a rational, `q * 0.5`, written with `Rat.divInt` so that it
evaluates by kernel reduction. -/
def qHalf (q : ℚ) : ℚ :=
  Rat.divInt q.num (2 * (q.den : ℤ))

/-- Python `str.lower()` (ASCII lowering; every configured phrase is
ASCII).  Implemented characterwise so that it evaluates by kernel
reduction. -/
def pyLower (s : String) : String :=
  String.mk (s.toList.map Char.toLower)

/-- Python `' '.join(l)`. -/
def joinSpace (l : List String) : String :=
  String.intercalate " " l

/-- Characters accepted by Python's `\s` / `str.split()` whitespace
(ASCII fragment). -/
def isPySpace (c : Char) : Bool :=
  c = ' ' || c = '\t' || c = '\n' || c = '\x0d' || c = '\x0b' || c = '\x0c'

/-- Word-splitting worker: accumulates the current word (reversed) while
scanning. -/
def wordsAux : List Char → List Char → List String
  | [], acc => if acc.isEmpty then [] else [String.mk acc.reverse]
  | c :: rest, acc =>
    if isPySpace c then
      if acc.isEmpty then wordsAux rest []
      else String.mk acc.reverse :: wordsAux rest []
    else wordsAux rest (c :: acc)

/-- Python `s.split()` (split on whitespace runs, dropping empty pieces). -/
def pyWords (s : String) : List String :=
  wordsAux s.toList []

/-- Python `s.strip()` (ASCII whitespace fragment). -/
def pyStrip (s : String) : String :=
  String.mk ((s.toList.dropWhile (fun c => isPySpace c)).reverse.dropWhile
    (fun c => isPySpace c)).reverse

/-- Python value as stored in the dynamic dictionaries of the service
(slot maps, symptom records, parsed LLM JSON).  JSON arrays are modelled
as arrays of scalars (`varr`); the repository only ever stores lists of
strings, and the extracted JSON block of `_parse_llm_response` cannot
contain a nested object (its regex forbids an inner `}`). -/
inductive PyAtom where
  | astr (s : String)
  | anum (q : ℚ)
  | abool (b : Bool)
  | anull
deriving DecidableEq

inductive PyVal where
  | vstr (s : String)
  | vnum (q : ℚ)
  | vbool (b : Bool)
  | vnull
  | varr (l : List PyAtom)
deriving DecidableEq

/-- A Python dictionary with string keys, modelled extensionally:
`none` = key absent, `some v` = key present with value `v` (which may be
`PyVal.vnull`, Python's `None`). -/
def PyDict : Type := String → Option PyVal

/-- Python `cur.update(ex)`: every key of `ex` overwrites `cur`. -/
def dictUpdate (cur ex : PyDict) : PyDict :=
  fun k => match ex k with
    | some v => some v
    | none => cur k

/-- The empty Python dictionary `{}`. -/
def emptyDict : PyDict := fun _ => none

namespace TriageScorer

/-- Triage urgency levels (`TriageLevel` in `triage_scorer.py`). -/
inductive TriageLevel where
  | critical
  | high
  | medium
  | low
deriving DecidableEq

/-- `TriageScorer.RED_FLAGS`: category → trigger phrases, in source
(insertion) order. -/
def RED_FLAGS : List (String × List String) :=
  [("cardiac",
    ["chest pain", "crushing pain", "chest pressure",
     "pain radiating to arm", "pain radiating to jaw",
     "chest dey pain me well well"]),
   ("respiratory",
    ["can\x27t breathe", "difficulty breathing", "shortness of breath",
     "severe difficulty breathing", "i no fit breathe", "gasping"]),
   ("neurological",
    ["stroke", "sudden weakness", "face drooping", "slurred speech",
     "sudden severe headache", "worst headache", "confused",
     "unconscious", "seizure", "convulsion", "fit"]),
   ("bleeding",
    ["severe bleeding", "bleeding heavily", "uncontrolled bleeding",
     "blood dey commot plenty", "vomiting blood", "coughing blood"]),
   ("trauma",
    ["severe injury", "head injury", "accident", "fall from height",
     "stabbing", "gunshot"]),
   ("mental_health",
    ["suicide", "want to kill myself", "suicidal thoughts",
     "want to harm myself"]),
   ("pediatric",
    ["baby not breathing", "child not responding", "baby very weak",
     "pikin no fit breathe", "high fever in baby"]),
   ("obstetric",
    ["severe bleeding pregnant", "severe abdominal pain pregnant",
     "water broke early", "baby not moving"])]

/-- `TriageScorer.AMBER_FLAGS`. -/
def AMBER_FLAGS : List (String × List String) :=
  [("infection",
    ["high fever", "fever above 39", "persistent fever",
     "severe chills", "body hot well well"]),
   ("pain",
    ["severe pain", "pain 8/10", "pain 9/10", "pain 10/10",
     "unbearable pain", "pain dey worry me"]),
   ("gastrointestinal",
    ["severe vomiting", "vomiting for days", "bloody stool",
     "severe diarrhea", "severe abdominal pain"]),
   ("dehydration",
    ["very weak", "dizzy", "fainting", "no urination",
     "dry mouth", "very thirsty"])]

/-- `TriageScorer._check_red_flags`: first category (in source order) one of
whose phrases occurs in the text. -/
def check_red_flags (text : String) : Option String :=
  (RED_FLAGS.find? (fun p => p.2.any (fun f => strContains text f))).map (fun p => p.1)

/-- `TriageScorer._check_amber_flags`. -/
def check_amber_flags (text : String) : Option String :=
  (AMBER_FLAGS.find? (fun p => p.2.any (fun f => strContains text f))).map (fun p => p.1)

/-- Vital signs dictionary: each field is `vital_signs.get(key)`;
`none` models both an absent key and a `None` value. -/
structure VitalSigns where
  temperature : Option ℚ
  bp_systolic : Option ℚ
  pulse : Option ℚ
  spo2 : Option ℚ
deriving DecidableEq

/-- Temperature block of `_score_vital_signs` (`if temp:` then the
elif chain); `temp = 0` is falsy in Python and scores nothing. -/
def tempScore : Option ℚ → ℤ
  | none => 0
  | some t =>
    if t = 0 then 0
    else if t ≥ mkRat 395 10 then 2
    else if t ≥ mkRat 385 10 then 1
    else if t ≤ (35 : ℚ) then 2
    else 0

/-- Systolic blood pressure block of `_score_vital_signs`. -/
def bpScore : Option ℚ → ℤ
  | none => 0
  | some b =>
    if b = 0 then 0
    else if b ≥ (180 : ℚ) then 2
    else if b ≤ (90 : ℚ) then 2
    else 0

/-- Pulse block of `_score_vital_signs`. -/
def pulseScore : Option ℚ → ℤ
  | none => 0
  | some p =>
    if p = 0 then 0
    else if p ≥ (120 : ℚ) then 1
    else if p ≤ (50 : ℚ) then 1
    else 0

/-- SpO2 block of `_score_vital_signs` (`if spo2 and spo2 < 92:`). -/
def spo2Score : Option ℚ → ℤ
  | none => 0
  | some s => if s ≠ 0 ∧ s < (92 : ℚ) then 2 else 0

/-- `TriageScorer._score_vital_signs`: sum of the four blocks, capped at 3. -/
def score_vital_signs (v : VitalSigns) : ℤ :=
  min (tempScore v.temperature + bpScore v.bp_systolic +
       pulseScore v.pulse + spo2Score v.spo2) 3

/-- Patient metadata dictionary (`age`, `chronic_conditions`, `pregnant`).
`chronic_conditions` is modelled as the list case of the source's
`isinstance(conditions, list)` branch; `pregnant` as the truthiness of
`metadata.get("pregnant")`. -/
structure PatientMetadata where
  age : Option ℚ
  chronic_conditions : List String
  pregnant : Bool
deriving DecidableEq

/-- Age block of `_score_patient_metadata` (`if age:`; age 0 is falsy). -/
def ageScore : Option ℚ → ℤ
  | none => 0
  | some a =>
    if a = 0 then 0
    else if a < 1 then 2
    else if a < 5 ∨ a > 65 then 1
    else 0

/-- Python `repr` of a list of (quote-free ASCII) strings, as produced by
`str(conditions)`: `['a', 'b']`. -/
def pyReprStrList (l : List String) : String :=
  "[" ++ String.intercalate ", " (l.map (fun s => "\x27" ++ s ++ "\x27")) ++ "]"

/-- High-risk chronic conditions of `_score_patient_metadata`. -/
def high_risk_conditions : List String :=
  ["diabetes", "heart disease", "hypertension", "asthma", "copd"]

/-- Comorbidity block of `_score_patient_metadata`:
`any(cond in str(conditions).lower() for cond in high_risk_conditions)`. -/
def condScore (conds : List String) : ℤ :=
  if high_risk_conditions.any
      (fun c => strContains (pyLower (pyReprStrList conds)) c) then 1 else 0

/-- `TriageScorer._score_patient_metadata`: age + comorbidity + pregnancy,
capped at 2. -/
def score_patient_metadata (m : PatientMetadata) : ℤ :=
  min (ageScore m.age + condScore m.chronic_conditions +
       (if m.pregnant then 1 else 0)) 2

/-- Symptom data dictionary as read by `_calculate_score_rule_based`:
each field holds `symptom_data.get(key, default)` (so an absent key is the
default: `""` for the strings, `0` for severity, `[]` for the associated
symptoms).  `associated_symptoms` may be a string or a list of strings, as
in the source's `isinstance` dispatch. -/
structure SymptomData where
  primary_symptom : String
  severity : PyVal
  character : String
  associated_symptoms : String ⊕ List String
  onset : String
  duration : String

/-- Severity contribution `int(severity * 0.5)` under
`isinstance(severity, (int, float))`.  A Python `bool` is an `int`
(`int(True * 0.5) = 0`), so `vbool` contributes 0; any other type skips
the block. -/
def severityContrib : PyVal → ℤ
  | .vnum q => pyTrunc (qHalf q)
  | .vbool _ => 0
  | _ => 0

/-- The lowercase text blob of `_calculate_score_rule_based`:
`f"{primary_symptom} {character} {' '.join(associated_symptoms)}".lower()`
with `primary_symptom`/`character`/the list entries already lowered. -/
def symptomBlob (sd : SymptomData) : String :=
  let primary := pyLower sd.primary_symptom
  let ch := pyLower sd.character
  let assoc := match sd.associated_symptoms with
    | .inl s => [pyLower s]
    | .inr l => l.map (fun s => pyLower s)
  pyLower (primary ++ " " ++ ch ++ " " ++ joinSpace assoc)

/-- Sudden-onset markers of `_calculate_score_rule_based`. -/
def suddenWords : List String := ["sudden", "suddenly", "just now", "just started"]

/-- Persistence markers of `_calculate_score_rule_based`. -/
def persistWords : List String := ["days", "week", "weeks", "persistent"]

/-- `TriageScorer._calculate_score_rule_based`.  A red-flag hit sets the
score to 10 and returns `min(score, 10)` immediately; otherwise amber flag,
severity, onset, duration, vitals and metadata accumulate and the result is
clamped to `[1, 10]`. -/
def calculate_score_rule_based (sd : SymptomData) (vs : Option VitalSigns)
    (md : Option PatientMetadata) : ℤ :=
  let allText := symptomBlob sd
  if (check_red_flags allText).isSome then min 10 10
  else
    let s : ℤ :=
      (if (check_amber_flags allText).isSome then 5 else 0)
      + severityContrib sd.severity
      + (if suddenWords.any (fun w => strContains (pyLower sd.onset) w) then 2 else 0)
      + (if persistWords.any (fun w => strContains (pyLower sd.duration) w) then 1 else 0)
      + (match vs with | some v => score_vital_signs v | none => 0)
      + (match md with | some m => score_patient_metadata m | none => 0)
    max 1 (min 10 s)

/-- `TriageScorer.get_triage_level`. -/
def get_triage_level (score : ℤ) : TriageLevel :=
  if score ≥ 9 then .critical
  else if score ≥ 6 then .high
  else if score ≥ 3 then .medium
  else .low

/-- Rank of a triage level in the order low < medium < high < critical. -/
def levelRank : TriageLevel → ℕ
  | .low => 0
  | .medium => 1
  | .high => 2
  | .critical => 3

/-- `TriageScorer.get_recommended_actions` (rule-based data; the symptom
dictionary argument is unused by the source body). -/
def get_recommended_actions (level : TriageLevel)
    (red_flag_category : Option String) : List String :=
  match level with
  | .critical =>
    ["🚨 IMMEDIATE ATTENTION REQUIRED",
     "Call emergency services or go to ER immediately",
     "Do not wait for appointment",
     "Alert clinical staff immediately"] ++
    (if red_flag_category = some "cardiac" then
        ["Possible heart attack - call ambulance"]
     else if red_flag_category = some "respiratory" then
        ["Severe breathing difficulty - immediate intervention needed"]
     else if red_flag_category = some "neurological" then
        ["Possible stroke - time-critical intervention"]
     else [])
  | .high =>
    ["⚠️ URGENT: Should be seen within 1 hour",
     "Fast-track for next available appointment",
     "Monitor patient closely while waiting",
     "Notify on-duty clinician"]
  | .medium =>
    ["Semi-urgent: Schedule within 4 hours",
     "Standard appointment booking process",
     "Provide symptom management advice",
     "Monitor for worsening symptoms"]
  | .low =>
    ["Non-urgent: Can wait up to 24 hours",
     "Schedule regular appointment",
     "Provide self-care guidance",
     "Home monitoring acceptable"]

/-- `TriageScorer.get_wait_time_recommendation`. -/
def get_wait_time_recommendation : TriageLevel → String
  | .critical => "Immediate - 0 minutes"
  | .high => "Within 1 hour"
  | .medium => "Within 4 hours"
  | .low => "Within 24 hours"

/-- The dictionary returned by `TriageScorer.triage`. -/
structure TriageResult where
  score : ℤ
  triage_level : TriageLevel
  red_flag_detected : Bool
  red_flag_category : Option String
  recommended_actions : List String
  max_wait_time : String
  requires_immediate_attention : Bool
deriving DecidableEq

/-- `TriageScorer.triage` (rule-based scoring path).  Note that the red-flag
re-check used for `red_flag_detected` scans only
`f"{primary_symptom} {character}".lower()` — the associated symptoms are not
part of this second blob, unlike the scoring blob. -/
def triage (sd : SymptomData) (vs : Option VitalSigns)
    (md : Option PatientMetadata) : TriageResult :=
  let score := calculate_score_rule_based sd vs md
  let level := get_triage_level score
  let allText := pyLower (sd.primary_symptom ++ " " ++ sd.character)
  let cat := check_red_flags allText
  { score := score
    triage_level := level
    red_flag_detected := cat.isSome
    red_flag_category := cat
    recommended_actions := get_recommended_actions level cat
    max_wait_time := get_wait_time_recommendation level
    requires_immediate_attention := level = .critical }

/-- Every configured red-flag phrase, across all eight categories. -/
def allRedFlagPhrases : List String :=
  (RED_FLAGS.map (fun p => p.2)).flatten

end TriageScorer

namespace SafetyValidator

/-- `ViolationType` in `safety_validator.py`. -/
inductive ViolationType where
  | medical_advice
  | diagnosis
  | prescription
  | dangerous_advice
  | inappropriate_content
  | privacy_violation
  | scope_exceeded
deriving DecidableEq

/-- `SafetyAction` in `safety_validator.py`. -/
inductive SafetyAction where
  | block
  | warn
  | escalate
  | log
deriving DecidableEq

/-- `SafetyValidator.DIAGNOSIS_KEYWORDS` (a Python set; order is irrelevant
to the membership checks below). -/
def DIAGNOSIS_KEYWORDS : List String :=
  ["you have malaria", "you have typhoid", "you have cancer",
   "you have diabetes", "you have covid", "you have stroke",
   "you are suffering from", "you\x27ve got",
   "diagnosed with", "condition is",
   "you probably have", "likely have", "definitely have",
   "your sickness na", "your problem na",
   "e be like say you get", "you don get",
   "malaria confirmed", "typhoid confirmed", "covid confirmed",
   "cancer detected", "diabetes confirmed", "symptoms confirm"]

/-- `SafetyValidator.PRESCRIPTION_KEYWORDS`. -/
def PRESCRIPTION_KEYWORDS : List String :=
  ["take this drug", "you should take", "i recommend taking",
   "prescribe", "medication for you", "drug for you",
   "take paracetamol", "take amoxicillin", "take chloroquine",
   "use this medicine", "take these tablets",
   "make you take", "use this drug", "drink this medicine",
   "this drug go help you", "take am", "use am",
   "mg daily", "mg three times", "times a day", "times daily",
   "before meals", "after meals",
   "continue for", "days treatment", "500mg"]

/-- `SafetyValidator.DANGEROUS_KEYWORDS`. -/
def DANGEROUS_KEYWORDS : List String :=
  ["don\x27t go to hospital", "no need for doctor", "wait it out",
   "it will pass", "just rest", "self-medicate",
   "no go hospital", "no need doctor", "e go pass",
   "just rest small", "use local medicine",
   "treat at home", "home remedy for chest pain",
   "natural cure for", "avoid hospital"]

/-- `SafetyValidator.APPROPRIATE_PHRASES`. -/
def APPROPRIATE_PHRASES : List String :=
  ["i\x27m collecting information", "to help the clinic prepare",
   "for the doctor to review", "nurse will assess",
   "clinician will determine", "medical professional will",
   "make i collect information", "make doctor fit check you",
   "nurse go check you", "medical person go see you",
   "i\x27m not a doctor", "i cannot diagnose", "cannot prescribe",
   "this is not medical advice", "seek immediate care",
   "go to the hospital", "see a doctor"]

/-- `SafetyValidator._contains_diagnosis` (argument already lowercased). -/
def contains_diagnosis (text : String) : Bool :=
  DIAGNOSIS_KEYWORDS.any (fun k => strContains text k)

/-- `SafetyValidator._contains_prescription`. -/
def contains_prescription (text : String) : Bool :=
  PRESCRIPTION_KEYWORDS.any (fun k => strContains text k)

/-- `SafetyValidator._contains_dangerous_advice`. -/
def contains_dangerous_advice (text : String) : Bool :=
  DANGEROUS_KEYWORDS.any (fun k => strContains text k)

/-- Question markers of `SafetyValidator._is_within_scope`. -/
def question_markers : List String :=
  ["what", "when", "where", "how", "can you", "do you", "?"]

/-- `SafetyValidator._is_within_scope`: contains an appropriate phrase, or
is a short (fewer than 30 words) question-like text. -/
def is_within_scope (text : String) : Bool :=
  if APPROPRIATE_PHRASES.any (fun p => strContains text p) then true
  else if question_markers.any (fun m => strContains text m)
          ∧ (pyWords text).length < 30 then true
  else false

/-- `SafetyValidator._determine_action`.  Critical violations (prescription,
dangerous advice, diagnosis) block, except that a diagnosis violation with
triage level `"critical"` escalates; scope-only and anything else warn. -/
def determine_action (violations : List ViolationType)
    (triage_level : Option String) : SafetyAction :=
  let critical_violations : List ViolationType :=
    [.prescription, .dangerous_advice, .diagnosis]
  if violations.any (fun v => critical_violations.contains v) then
    if violations.contains .diagnosis ∧ triage_level = some "critical" then
      .escalate
    else .block
  else if violations.contains .scope_exceeded then .warn
  else .warn

/-- `SafetyValidator._get_disclaimer`. -/
def get_disclaimer : String :=
  "This is an AI triage assistant. Information collected is for " ++
  "healthcare professional review only. This is not medical advice, " ++
  "diagnosis, or treatment. Always consult qualified medical staff."

/-- `SafetyValidator._add_disclaimer`: append the transparency note unless
the response already contains "not a doctor". -/
def add_disclaimer (response : String) : String :=
  if strContains (pyLower response) "not a doctor" then response
  else response ++
    "\n\n*Note: I\x27m an AI assistant collecting information " ++
    "for clinic staff. Not medical advice.*"

/-- `SafetyValidator._generate_safe_alternative`. -/
def generate_safe_alternative (violations : List ViolationType)
    (triage_level : Option String) : String :=
  if triage_level = some "critical" then
    "I\x27ve noted your symptoms. Based on what you\x27ve shared, " ++
    "this requires immediate medical attention. Please go to " ++
    "the nearest hospital emergency room or call emergency services. " ++
    "I cannot provide diagnosis or treatment - only a qualified " ++
    "medical professional can do that.\n\n" ++
    "**I am not a doctor. This is not medical advice.**"
  else if violations.contains .prescription then
    "I cannot recommend or prescribe medications. Only licensed " ++
    "medical professionals can prescribe drugs. Please visit the " ++
    "clinic so a doctor can properly assess your condition and " ++
    "prescribe appropriate treatment if needed.\n\n" ++
    "**I am not a doctor. I cannot prescribe medication.**"
  else if violations.contains .diagnosis then
    "I\x27m here to collect information about your symptoms to help " ++
    "prepare for your visit with a medical professional. I cannot " ++
    "diagnose medical conditions - that requires examination by " ++
    "a qualified doctor. Would you like to schedule an appointment " ++
    "or should I continue collecting symptom information?\n\n" ++
    "**I am not a doctor. This is not a diagnosis.**"
  else
    "I\x27m an AI assistant designed to help collect symptom information " ++
    "for triage purposes only. I cannot provide medical advice, " ++
    "diagnosis, or treatment recommendations. Please consult with " ++
    "a qualified healthcare professional at the clinic.\n\n" ++
    "**I am not a doctor. Please seek professional medical care.**"

/-- `SafetyResult` (the timestamp field and the violation audit log are
side effects outside the model). -/
structure SafetyResult where
  is_safe : Bool
  violations : List ViolationType
  action : SafetyAction
  modified_response : String
  disclaimer : Option String
  reasoning : String
deriving DecidableEq

/-- The final "Response is safe" return of `_validate_rule_based` (also
reached, by fall-through, when `_determine_action` yields `ESCALATE` or
`LOG`, since only `BLOCK` and `WARN` have return branches). -/
def passedResult (ai_response : String) : SafetyResult :=
  { is_safe := true
    violations := []
    action := .log
    modified_response := add_disclaimer ai_response
    disclaimer := some get_disclaimer
    reasoning := "Response passed all safety checks" }

/-- `SafetyValidator._validate_rule_based`.  The four checks run on the
lowercased response; violations and reasoning parts accumulate in source
order; `BLOCK` and `WARN` return their dedicated results, every other
action falls through to the "passed all safety checks" result. -/
def validate_rule_based (_user_message ai_response : String)
    (_intent : Option String) (triage_level : Option String) : SafetyResult :=
  let response_lower := pyLower ai_response
  let checks : List (Bool × ViolationType × String) :=
    [(contains_diagnosis response_lower, .diagnosis,
      "Response contains diagnostic language"),
     (contains_prescription response_lower, .prescription,
      "Response suggests medication"),
     (contains_dangerous_advice response_lower, .dangerous_advice,
      "Response discourages seeking medical care"),
     (!is_within_scope response_lower, .scope_exceeded,
      "Response exceeds triage/intake scope")]
  let hits := checks.filter (fun c => c.1)
  let violations := hits.map (fun c => c.2.1)
  let reasoning := String.intercalate " | " (hits.map (fun c => c.2.2))
  if violations ≠ [] then
    let action := determine_action violations triage_level
    if action = .block then
      { is_safe := false
        violations := violations
        action := action
        modified_response := generate_safe_alternative violations triage_level
        disclaimer := some get_disclaimer
        reasoning := reasoning }
    else if action = .warn then
      { is_safe := true
        violations := violations
        action := action
        modified_response := add_disclaimer ai_response
        disclaimer := some get_disclaimer
        reasoning := reasoning }
    else passedResult ai_response
  else passedResult ai_response

end SafetyValidator

namespace IntentClassifier

/-- `IntentType` in `app/models/schemas.py`. -/
inductive IntentType where
  | appointment_booking
  | medication_refill
  | symptom_inquiry
  | feedback_complaint
  | general_inquiry
  | emergency
deriving DecidableEq

/-- `IntentType(value)` lookup: `some` on the six known value strings,
`none` models the `ValueError` raised for anything else. -/
def intentTypeOfString (s : String) : Option IntentType :=
  if s = "appointment_booking" then some .appointment_booking
  else if s = "medication_refill" then some .medication_refill
  else if s = "symptom_inquiry" then some .symptom_inquiry
  else if s = "feedback_complaint" then some .feedback_complaint
  else if s = "general_inquiry" then some .general_inquiry
  else if s = "emergency" then some .emergency
  else none

/-- `IntentClassifier.EMERGENCY_KEYWORDS`. -/
def EMERGENCY_KEYWORDS : List String :=
  ["chest pain", "can\x27t breathe", "can not breathe", "cannot breathe",
   "difficulty breathing", "heart attack", "stroke", "unconscious",
   "severe bleeding", "bleeding heavily", "suicide", "kill myself",
   "choking", "seizure", "collapsed", "unresponsive",
   "i no fit breathe", "chest dey pain me well well", "blood dey commot plenty"]

/-- `IntentClassifier._detect_emergency`: any keyword occurring in the
lowercased message. -/
def detect_emergency (message : String) : Bool :=
  EMERGENCY_KEYWORDS.any (fun k => strContains (pyLower message) k)

/-- The regex search `re.search(r'\x7b[^\x7d]+\x7d', response)` of
`_parse_llm_response`, on the character list: the leftmost `{`, followed by
at least one non-`}` character and then a `}`, yields the matched block.
On failure at one starting `{` the scan continues at the next position. -/
def findBrace : List Char → Option (List Char)
  | [] => none
  | c :: rest =>
    if c = '{' then
      let run := rest.takeWhile (fun x => x ≠ '}')
      if 0 < run.length ∧ run.length < rest.length then
        some ('{' :: (run ++ ['}']))
      else findBrace rest
    else findBrace rest

/-- String form of `findBrace`. -/
def findJsonBlock (s : String) : Option String :=
  (findBrace s.toList).map String.mk

/-- JSON whitespace characters skipped by `json.loads`. -/
def isJsonWs (c : Char) : Bool :=
  c = ' ' || c = '\t' || c = '\n' || c = '\x0d'

/-- Skip JSON whitespace. -/
def skipWs (l : List Char) : List Char :=
  l.dropWhile (fun c => isJsonWs c)

/-- Value of a hexadecimal digit. -/
def hexVal (c : Char) : Option Nat :=
  if '0' ≤ c ∧ c ≤ '9' then some (c.toNat - 48)
  else if 'a' ≤ c ∧ c ≤ 'f' then some (c.toNat - 87)
  else if 'A' ≤ c ∧ c ≤ 'F' then some (c.toNat - 70)
  else none

/-- Single-character JSON string escapes. -/
def escOf (c : Char) : Option Char :=
  if c = '"' then some '"'
  else if c = '\\' then some '\\'
  else if c = '/' then some '/'
  else if c = 'b' then some '\x08'
  else if c = 'f' then some '\x0c'
  else if c = 'n' then some '\n'
  else if c = 'r' then some '\x0d'
  else if c = 't' then some '\t'
  else none

/-- Parse the tail of a JSON string literal (the opening quote already
consumed): returns the decoded characters and the remainder after the
closing quote.  Raw control characters are rejected, as by `json.loads`
with its default `strict=True`. -/
def jsonStringTail (fuel : Nat) (l : List Char) : Option (List Char × List Char) :=
  match fuel, l with
  | 0, _ => none
  | _, [] => none
  | f + 1, c :: rest =>
    if c = '"' then some ([], rest)
    else if c = '\\' then
      match rest with
      | [] => none
      | e :: r2 =>
        if e = 'u' then
          match r2 with
          | h1 :: h2 :: h3 :: h4 :: r3 =>
            match hexVal h1, hexVal h2, hexVal h3, hexVal h4 with
            | some a, some b, some c2, some d =>
              (jsonStringTail f r3).map
                (fun p => (Char.ofNat (((a * 16 + b) * 16 + c2) * 16 + d) :: p.1, p.2))
            | _, _, _, _ => none
          | _ => none
        else
          match escOf e with
          | some ce => (jsonStringTail f r2).map (fun p => (ce :: p.1, p.2))
          | none => none
    else if c.toNat < 32 then none
    else (jsonStringTail f rest).map (fun p => (c :: p.1, p.2))

/-- Digit characters to a natural number. -/
def digitsToNat (ds : List Char) : Nat :=
  ds.foldl (fun a c => a * 10 + (c.toNat - 48)) 0

/-- Parse a JSON number (strict grammar: no leading zeros, mandatory
digits around the decimal point on each required side).  The value
`± (I.F) · 10^e` is assembled with `Rat.divInt` so that it evaluates by
kernel reduction; it is the exact rational value of the decimal (Python
would round it to the nearest IEEE double, a difference invisible at the
decimals used anywhere in this development). -/
def parseNumber (l : List Char) : Option (ℚ × List Char) :=
  let p := match l with
    | '-' :: r => (true, r)
    | _ => (false, l)
  let neg := p.1
  let l1 := p.2
  let intDigits := l1.takeWhile Char.isDigit
  if intDigits.isEmpty then none
  else if 1 < intDigits.length ∧ intDigits.head? = some '0' then none
  else
    let l2 := l1.drop intDigits.length
    let fracRes : Option (List Char × List Char) :=
      match l2 with
      | '.' :: r =>
        let fd := r.takeWhile Char.isDigit
        if fd.isEmpty then none
        else some (fd, r.drop fd.length)
      | _ => some ([], l2)
    match fracRes with
    | none => none
    | some (fd, l3) =>
      let mAbs : ℤ := (digitsToNat intDigits * 10 ^ fd.length + digitsToNat fd : ℕ)
      let mNum : ℤ := if neg then -mAbs else mAbs
      let mDen : ℤ := (10 ^ fd.length : ℕ)
      match l3 with
      | 'e' :: r | 'E' :: r =>
        let q := match r with
          | '+' :: rr => ((1 : ℤ), rr)
          | '-' :: rr => ((-1 : ℤ), rr)
          | _ => ((1 : ℤ), r)
        let ed := q.2.takeWhile Char.isDigit
        if ed.isEmpty then none
        else
          let e : ℤ := q.1 * (digitsToNat ed : ℤ)
          some (Rat.divInt (mNum * 10 ^ e.toNat) (mDen * 10 ^ (-e).toNat),
                q.2.drop ed.length)
      | _ => some (Rat.divInt mNum mDen, l3)

/-- Parse a JSON scalar (string, literal, or number). -/
def parseAtom (fuel : Nat) (l : List Char) : Option (PyAtom × List Char) :=
  match l with
  | '"' :: rest =>
    (jsonStringTail fuel rest).map (fun p => (.astr (String.mk p.1), p.2))
  | 't' :: 'r' :: 'u' :: 'e' :: r => some (.abool true, r)
  | 'f' :: 'a' :: 'l' :: 's' :: 'e' :: r => some (.abool false, r)
  | 'n' :: 'u' :: 'l' :: 'l' :: r => some (.anull, r)
  | _ => (parseNumber l).map (fun p => (.anum p.1, p.2))

/-- Parse the elements of a JSON array of scalars, up to and including the
closing bracket. -/
def parseArrayElems (fuel : Nat) (l : List Char) :
    Option (List PyAtom × List Char) :=
  match fuel with
  | 0 => none
  | f + 1 =>
    match parseAtom (l.length + 1) (skipWs l) with
    | none => none
    | some (a, r) =>
      match skipWs r with
      | ',' :: r2 => (parseArrayElems f r2).map (fun p => (a :: p.1, p.2))
      | ']' :: r2 => some ([a], r2)
      | _ => none

/-- A `PyAtom` as a `PyVal`. -/
def atomVal : PyAtom → PyVal
  | .astr s => .vstr s
  | .anum q => .vnum q
  | .abool b => .vbool b
  | .anull => .vnull

/-- Parse a JSON value: a scalar or an array of scalars.  A nested object
cannot occur in the block extracted by `findJsonBlock` (it would need an
inner `}`); nested arrays are outside the model. -/
def parseValue (fuel : Nat) (l : List Char) : Option (PyVal × List Char) :=
  match l with
  | '[' :: rest =>
    match skipWs rest with
    | ']' :: r2 => some (.varr [], r2)
    | _ => (parseArrayElems fuel rest).map (fun p => (.varr p.1, p.2))
  | _ => (parseAtom fuel l).map (fun p => (atomVal p.1, p.2))

/-- Parse the members of a JSON object, up to and including the closing
brace; duplicate keys are kept in order (lookup takes the last, as a
Python dict does). -/
def parseMembers (fuel : Nat) (l : List Char) :
    Option (List (String × PyVal) × List Char) :=
  match fuel with
  | 0 => none
  | f + 1 =>
    match skipWs l with
    | '"' :: rest =>
      match jsonStringTail (rest.length + 1) rest with
      | none => none
      | some (key, r1) =>
        match skipWs r1 with
        | ':' :: r2 =>
          match parseValue (r2.length + 1) (skipWs r2) with
          | none => none
          | some (v, r3) =>
            match skipWs r3 with
            | ',' :: r4 =>
              (parseMembers f r4).map (fun p => ((String.mk key, v) :: p.1, p.2))
            | '}' :: r4 => some ([(String.mk key, v)], r4)
            | _ => none
        | _ => none
    | _ => none

/-- `json.loads` restricted to the object shapes reachable from
`findJsonBlock` (flat objects of scalars and scalar arrays; no
NaN/Infinity extension).  `none` models `json.JSONDecodeError`. -/
def jsonLoads (s : String) : Option (List (String × PyVal)) :=
  match skipWs s.toList with
  | '{' :: rest =>
    match skipWs rest with
    | '}' :: r2 => if (skipWs r2).isEmpty then some [] else none
    | _ =>
      match parseMembers (rest.length + 1) rest with
      | some (obj, r2) => if (skipWs r2).isEmpty then some obj else none
      | none => none
  | _ => none

/-- `parsed.get(key)` on the parsed object: last binding wins, as in a
Python dict built from a JSON object with duplicate keys. -/
def pyGet (obj : List (String × PyVal)) (k : String) : Option PyVal :=
  (obj.reverse.find? (fun p => p.1 == k)).map (fun p => p.2)

/-- The fallback dictionaries of `_parse_llm_response`. -/
def fallbackParsed (reason : String) : List (String × PyVal) :=
  [("intent", .vstr "general_inquiry"),
   ("confidence", .vnum (mkRat 1 2)),
   ("reasoning", .vstr reason)]

/-- `IntentClassifier._parse_llm_response`: extract the first `{...}` block
and JSON-parse it; on a missing block or a decode error return the
diagnostic fallback dictionary. -/
def parse_llm_response (response : String) : List (String × PyVal) :=
  match findJsonBlock response with
  | some block =>
    match jsonLoads block with
    | some obj => obj
    | none => fallbackParsed "JSON parsing error"
  | none => fallbackParsed "Failed to parse LLM response"

/-- Python `float(s)` on a string: optional surrounding whitespace, sign,
decimal mantissa, optional exponent.  `none` models `ValueError` (the
`inf`/`nan` words and digit underscores are outside the model; on this
code path each of those also ends in an exception, via the pydantic
confidence range check). -/
def pyFloatOfString (s : String) : Option ℚ :=
  let t := ((s.toList.dropWhile (fun c => isPySpace c)).reverse.dropWhile
    (fun c => isPySpace c)).reverse
  let p := match t with
    | '-' :: r => (true, r)
    | '+' :: r => (false, r)
    | _ => (false, t)
  let neg := p.1
  let l1 := p.2
  let intDigits := l1.takeWhile Char.isDigit
  let l2 := l1.drop intDigits.length
  let fracRes : Option (List Char × List Char) :=
    match l2 with
    | '.' :: r =>
      let fd := r.takeWhile Char.isDigit
      if intDigits.isEmpty ∧ fd.isEmpty then none
      else some (fd, r.drop fd.length)
    | _ =>
      if intDigits.isEmpty then none
      else some ([], l2)
  match fracRes with
  | none => none
  | some (fd, l3) =>
    let mAbs : ℤ := (digitsToNat intDigits * 10 ^ fd.length + digitsToNat fd : ℕ)
    let mNum : ℤ := if neg then -mAbs else mAbs
    let mDen : ℤ := (10 ^ fd.length : ℕ)
    match l3 with
    | [] => some (Rat.divInt mNum mDen)
    | 'e' :: r | 'E' :: r =>
      let q := match r with
        | '+' :: rr => ((1 : ℤ), rr)
        | '-' :: rr => ((-1 : ℤ), rr)
        | _ => ((1 : ℤ), r)
      let ed := q.2.takeWhile Char.isDigit
      if ed.isEmpty ∨ q.2.drop ed.length ≠ [] then none
      else
        let e : ℤ := q.1 * (digitsToNat ed : ℤ)
        some (Rat.divInt (mNum * 10 ^ e.toNat) (mDen * 10 ^ (-e).toNat))
    | _ => none

/-- Python `float(value)` as used on `parsed.get("confidence", 0.5)`:
numbers pass through, booleans coerce, strings parse, `None` and lists
raise `TypeError` (modelled as `Except.error`). -/
def pyFloat : PyVal → Except String ℚ
  | .vnum q => .ok q
  | .vbool b => .ok (if b then 1 else 0)
  | .vstr s =>
    match pyFloatOfString s with
    | some q => .ok q
    | none => .error "ValueError: could not convert string to float"
  | .vnull => .error "TypeError: float() argument cannot be None"
  | .varr _ => .error "TypeError: float() argument cannot be a list"

/-- `IntentResult` of `app/models/schemas.py`. -/
structure IntentResult where
  intent : IntentType
  confidence : ℚ
  reasoning : Option String
deriving DecidableEq

/-- The pydantic constructor of `IntentResult`: `confidence` is validated
against `ge=0.0, le=1.0`; a violation raises `ValidationError`. -/
def mkIntentResult (intent : IntentType) (confidence : ℚ)
    (reasoning : Option String) : Except String IntentResult :=
  if 0 ≤ confidence ∧ confidence ≤ 1 then .ok ⟨intent, confidence, reasoning⟩
  else .error "ValidationError: confidence out of range"

/-- `parsed.get("reasoning", "No reasoning provided")` fed to the pydantic
field `reasoning: Optional[str]`: strings and `None` pass, any other type
raises `ValidationError`. -/
def reasoningField (v : Option PyVal) : Except String (Option String) :=
  match v.getD (.vstr "No reasoning provided") with
  | .vstr s => .ok (some s)
  | .vnull => .ok none
  | _ => .error "ValidationError: reasoning must be a string"

/-- `IntentClassifier.classify`, with the raw LLM output supplied as the
oracle parameter `llmResponse` (the conversation history and metadata act
only through that output, so quantifying over `llmResponse` quantifies
over them).  The emergency check short-circuits before the oracle is
consulted.  `Except.error` models an uncaught Python exception. -/
def classify (message llmResponse : String) : Except String IntentResult :=
  if detect_emergency message then
    mkIntentResult .emergency (mkRat 98 100) (some "Emergency keywords detected in message")
  else
    let parsed := parse_llm_response llmResponse
    let intent : IntentType :=
      match (pyGet parsed "intent").getD (.vstr "general_inquiry") with
      | .vstr s => (intentTypeOfString s).getD .general_inquiry
      | _ => .general_inquiry
    match pyFloat ((pyGet parsed "confidence").getD (.vnum (mkRat 1 2))) with
    | .error e => .error e
    | .ok confidence =>
      match reasoningField (pyGet parsed "reasoning") with
      | .error e => .error e
      | .ok r => mkIntentResult intent confidence r

end IntentClassifier

namespace SlotFiller

open IntentClassifier (IntentType)

/-- `date_keywords` of `SlotFiller._extract_appointment_slots`, in source
order (the loop takes the first matching keyword and breaks). -/
def date_keywords : List (String × String) :=
  [("today", "today"), ("tomorrow", "tomorrow"), ("next week", "next_week"),
   ("monday", "monday"), ("tuesday", "tuesday"), ("wednesday", "wednesday"),
   ("thursday", "thursday"), ("friday", "friday")]

/-- `time_keywords` of `_extract_appointment_slots`. -/
def time_keywords : List (String × String) :=
  [("morning", "morning"), ("afternoon", "afternoon"), ("evening", "evening"),
   ("10", "10:00 AM"), ("11", "11:00 AM"),
   ("2 pm", "2:00 PM"), ("3 pm", "3:00 PM"), ("4 pm", "4:00 PM")]

/-- `reason_keywords` of `_extract_appointment_slots`. -/
def reason_keywords : List (String × String) :=
  [("checkup", "general checkup"), ("check up", "general checkup"),
   ("consultation", "consultation"), ("follow up", "follow-up visit"),
   ("review", "review"), ("test", "testing"),
   ("vaccination", "vaccination"), ("vaccine", "vaccination")]

/-- `medication_keywords` of `_extract_medication_slots`. -/
def medication_keywords : List (String × String) :=
  [("bp", "blood pressure medication"),
   ("blood pressure", "blood pressure medication"),
   ("diabetes", "diabetes medication"), ("sugar", "diabetes medication"),
   ("pain", "pain medication"), ("painkiller", "pain medication"),
   ("antibiotic", "antibiotic")]

/-- First table value whose keyword occurs in the message (`for ...: if
keyword in message: ...; break`). -/
def firstMatch (table : List (String × String)) (message : String) :
    Option String :=
  (table.find? (fun p => strContains message p.1)).map (fun p => p.2)

/-- `SlotFiller._extract_appointment_slots` (message already lowercased). -/
def extract_appointment_slots (message : String) : PyDict := fun k =>
  if k = "date" then (firstMatch date_keywords message).map .vstr
  else if k = "time" then (firstMatch time_keywords message).map .vstr
  else if k = "reason" then (firstMatch reason_keywords message).map .vstr
  else none

/-- `SlotFiller._extract_medication_slots`: first medication keyword, else
the whole (stripped) message when it has at most 5 words. -/
def extract_medication_slots (message : String) : PyDict := fun k =>
  if k = "medication_name" then
    match firstMatch medication_keywords message with
    | some v => some (.vstr v)
    | none =>
      if (pyWords message).length ≤ 5 then some (.vstr (pyStrip message))
      else none
  else none

/-- `symptom_keywords` of `_extract_symptom_slots`. -/
def symptom_keywords : List (String × String) :=
  [("headache", "headache"), ("head", "headache"), ("fever", "fever"),
   ("cough", "cough"), ("cold", "cold"), ("stomach", "stomach pain"),
   ("belly", "stomach pain"), ("belle", "stomach pain"),
   ("pain", "pain"), ("hurt", "pain"), ("sick", "general illness")]

/-- `duration_keywords` of `_extract_symptom_slots`. -/
def duration_keywords : List (String × String) :=
  [("today", "today"), ("yesterday", "since yesterday"),
   ("2 days", "2 days"), ("3 days", "3 days"),
   ("week", "about a week"), ("days", "several days")]

/-- `SlotFiller._extract_symptom_slots`. -/
def extract_symptom_slots (message : String) : PyDict := fun k =>
  if k = "primary_symptom" then (firstMatch symptom_keywords message).map .vstr
  else if k = "duration" then (firstMatch duration_keywords message).map .vstr
  else none

/-- `SlotFiller._extract_feedback_slots`: the full (original-case) message
is the feedback text. -/
def extract_feedback_slots (message : String) : PyDict := fun k =>
  if k = "feedback_text" then some (.vstr message) else none

/-- `SlotFiller._extract_inquiry_slots`. -/
def extract_inquiry_slots (message : String) : PyDict := fun k =>
  if k = "question" then some (.vstr message) else none

/-- `SlotFiller._extract_emergency_slots`. -/
def extract_emergency_slots (message : String) : PyDict := fun k =>
  if k = "symptoms" then some (.vstr message) else none

/-- The per-intent rule-based extraction of `SlotFiller.extract_slots`
(the `extracted` dictionary; it depends only on the message and intent). -/
def ruleExtract (message : String) (intent : IntentType) : PyDict :=
  let message_lower := pyLower message
  match intent with
  | .appointment_booking => extract_appointment_slots message_lower
  | .medication_refill => extract_medication_slots message_lower
  | .symptom_inquiry => extract_symptom_slots message_lower
  | .feedback_complaint => extract_feedback_slots message
  | .general_inquiry => extract_inquiry_slots message
  | .emergency => extract_emergency_slots message

/-- `SlotFiller.extract_slots` (rule-based path): extract per intent, then
`current_slots.update(extracted)` — every extracted key overwrites. -/
def extract_slots (message : String) (intent : IntentType)
    (current_slots : PyDict) : PyDict :=
  dictUpdate current_slots (ruleExtract message intent)

end SlotFiller

namespace SymptomIntake

open IntentClassifier (digitsToNat)

/-- Match a literal at the head of a character list, returning the rest. -/
def dropLit (lit : List Char) (l : List Char) : Option (List Char) :=
  if lit.isPrefixOf l then some (l.drop lit.length) else none

/-- One attempted match of `PRE(\d+) (day|days|hour|hours)` at the current
position: the literal `pre` (which ends in a space), one or more digits, a
space, then the unit alternation — `day` and `hour` are prefixes of the
plural alternatives listed after them, so the alternation reduces to those
two prefixes.  Returns the digit characters and whether the unit was a day
unit. -/
def matchNumUnitAt (pre : List Char) (l : List Char) : Option (List Char × Bool) :=
  match dropLit pre l with
  | none => none
  | some l1 =>
    let ds := l1.takeWhile Char.isDigit
    if ds.isEmpty then none
    else
      match l1.drop ds.length with
      | ' ' :: l2 =>
        if "day".toList.isPrefixOf l2 then some (ds, true)
        else if "hour".toList.isPrefixOf l2 then some (ds, false)
        else none
      | _ => none

/-- `re.search` for the duration patterns: leftmost position at which
`matchNumUnitAt` succeeds. -/
def scanNumUnit (pre : List Char) : List Char → Option (List Char × Bool)
  | [] => none
  | c :: rest =>
    match matchNumUnitAt pre (c :: rest) with
    | some r => some r
    | none => scanNumUnit pre rest

/-- The duration strings built from a regex match: `f"{num} days"` when
`int(num) > 1`, else `"1 day"` (same for hours). -/
def formatDur (ds : List Char) (isDay : Bool) : String :=
  if isDay then
    if 1 < digitsToNat ds then String.mk ds ++ " days" else "1 day"
  else
    if 1 < digitsToNat ds then String.mk ds ++ " hours" else "1 hour"

/-- One attempted match of `(\d+)\s*(?:out of 10|/10)` at the current
position (maximal digit run; shortening it cannot help since neither
alternative starts with a digit or whitespace). -/
def matchScaleAt (l : List Char) : Option Nat :=
  let ds := l.takeWhile Char.isDigit
  if ds.isEmpty then none
  else
    let l2 := (l.drop ds.length).dropWhile (fun c => isPySpace c)
    if "out of 10".toList.isPrefixOf l2 ∨ "/10".toList.isPrefixOf l2 then
      some (digitsToNat ds)
    else none

/-- Leftmost match of the `N out of 10` / `N/10` severity pattern. -/
def scanScale : List Char → Option Nat
  | [] => none
  | c :: rest =>
    match matchScaleAt (c :: rest) with
    | some n => some n
    | none => scanScale rest

/-- One attempted match of `(?:lit1|lit2|...)\s+(\d+)` at the current
position: the alternatives are tried in order; after a literal, one or
more whitespace characters then one or more digits. -/
def matchLitNumAt (lits : List (List Char)) (l : List Char) : Option Nat :=
  (lits.filterMap (fun lit =>
    match dropLit lit l with
    | none => none
    | some l1 =>
      let sp := l1.takeWhile (fun c => isPySpace c)
      if sp.isEmpty then none
      else
        let ds := (l1.drop sp.length).takeWhile Char.isDigit
        if ds.isEmpty then none else some (digitsToNat ds))).head?

/-- Leftmost match of a literal-then-number severity pattern. -/
def scanLitNum (lits : List (List Char)) : List Char → Option Nat
  | [] => none
  | c :: rest =>
    match matchLitNumAt lits (c :: rest) with
    | some n => some n
    | none => scanLitNum lits rest

/-- `symptom_keywords` of `SymptomIntakeAgent._extract_primary_symptom`,
in source order. -/
def symptom_keywords : List (String × List String) :=
  [("headache", ["headache", "head pain", "head dey pain", "head ache"]),
   ("fever", ["fever", "temperature", "hot body", "body hot"]),
   ("cough", ["cough", "coughing"]),
   ("chest pain", ["chest pain", "chest hurt", "chest dey pain"]),
   ("stomach pain",
    ["stomach pain", "belly pain", "belle pain", "belle dey pain",
     "abdominal pain"]),
   ("back pain", ["back pain", "back hurt", "back ache"]),
   ("sore throat", ["sore throat", "throat pain", "throat hurt"]),
   ("shortness of breath",
    ["shortness of breath", "can\x27t breathe", "difficulty breathing",
     "no fit breathe"]),
   ("nausea", ["nausea", "feel sick", "want to vomit"]),
   ("vomiting", ["vomit", "vomiting", "throwing up"]),
   ("diarrhea", ["diarrhea", "loose stool", "running stomach"]),
   ("dizziness", ["dizzy", "light headed", "spinning"]),
   ("fatigue", ["tired", "fatigue", "weak", "weakness", "no strength"])]

/-- `SymptomIntakeAgent._extract_primary_symptom` (always produces a
value: first matching symptom, else the stripped message verbatim). -/
def extract_primary_symptom (message : String) : String :=
  match symptom_keywords.find?
      (fun p => p.2.any (fun kw => strContains message kw)) with
  | some p => p.1
  | none => pyStrip message

/-- `onset_patterns` of `_extract_onset`. -/
def onset_patterns : List (String × List String) :=
  [("this morning", ["this morning", "today morning", "morning time"]),
   ("today", ["today", "this day"]),
   ("yesterday", ["yesterday", "last night"]),
   ("2 days ago", ["2 days", "two days", "since 2 days"]),
   ("3 days ago", ["3 days", "three days"]),
   ("this week", ["this week", "few days"]),
   ("last week", ["last week", "week ago"]),
   ("suddenly", ["sudden", "suddenly", "all of a sudden"]),
   ("gradually", ["gradual", "gradually", "over time"])]

/-- `SymptomIntakeAgent._extract_onset`. -/
def extract_onset (message : String) : Option String :=
  (onset_patterns.find? (fun p => p.2.any (fun q => strContains message q))).map
    (fun p => p.1)

/-- `duration_patterns` of `_extract_duration`. -/
def duration_patterns : List (String × List String) :=
  [("few hours", ["few hours", "some hours", "hours now"]),
   ("all day", ["all day", "whole day", "entire day"]),
   ("2 days", ["2 days", "two days"]),
   ("3 days", ["3 days", "three days"]),
   ("about a week", ["week", "7 days"]),
   ("several days", ["several days", "many days", "days now"]),
   ("persistent", ["persistent", "constant", "won\x27t stop", "not stopping"])]

/-- `SymptomIntakeAgent._extract_duration`: the `for N unit` regex, then
the `been N unit` regex, then the phrase table. -/
def extract_duration (message : String) : Option String :=
  match scanNumUnit "for ".toList message.toList with
  | some r => some (formatDur r.1 r.2)
  | none =>
    match scanNumUnit "been ".toList message.toList with
    | some r => some (formatDur r.1 r.2)
    | none =>
      (duration_patterns.find?
        (fun p => p.2.any (fun q => strContains message q))).map (fun p => p.1)

/-- `severity_map` of `_extract_severity` (ordered, longer phrases first). -/
def severity_map : List (String × Nat) :=
  [("very severe", 9), ("unbearable", 10), ("worst", 10), ("severe", 8),
   ("moderate", 5), ("medium", 5), ("mild", 3), ("little", 2), ("small", 2)]

/-- `SymptomIntakeAgent._extract_severity`: the `N/10` pattern, the Pidgin
pattern, the context pattern (each accepted only when the matched number
lies in 1..10; an out-of-range first match falls through to the next
stage, mirroring the source's `if 1 <= num <= 10: return num` with no
retry), then the descriptive table. -/
def extract_severity (message : String) : Option Nat :=
  let l := message.toList
  let s1 : Option Nat :=
    match scanScale l with
    | some n => if 1 ≤ n ∧ n ≤ 10 then some n else none
    | none => none
  match s1 with
  | some n => some n
  | none =>
    let s2 : Option Nat :=
      match scanLitNum
          ["like say na".toList, "e be like".toList, "na like".toList] l with
      | some n => if 1 ≤ n ∧ n ≤ 10 then some n else none
      | none => none
    match s2 with
    | some n => some n
    | none =>
      let s3 : Option Nat :=
        match scanLitNum
            ["pain".toList, "severity".toList, "about".toList,
             "around".toList, "like".toList] l with
        | some n => if 1 ≤ n ∧ n ≤ 10 then some n else none
        | none => none
      match s3 with
      | some n => some n
      | none =>
        (severity_map.find? (fun p => strContains message p.1)).map (fun p => p.2)

/-- `location_keywords` of `_extract_location`. -/
def location_keywords : List (String × List String) :=
  [("forehead", ["forehead", "front of head"]),
   ("temples", ["temple", "side of head", "sides"]),
   ("back of head", ["back of head", "back"]),
   ("chest center", ["center of chest", "middle chest", "in the center", "center"]),
   ("left chest", ["left chest", "left side"]),
   ("right chest", ["right chest", "right side"]),
   ("upper abdomen", ["upper stomach", "upper belly", "upper abdomen"]),
   ("lower abdomen", ["lower stomach", "lower belly", "lower abdomen"]),
   ("all over", ["all over", "everywhere", "whole", "entire"])]

/-- `SymptomIntakeAgent._extract_location`. -/
def extract_location (message : String) : Option String :=
  (location_keywords.find?
    (fun p => p.2.any (fun kw => strContains message kw))).map (fun p => p.1)

/-- `character_keywords` of `_extract_character`. -/
def character_keywords : List String :=
  ["sharp", "dull", "throbbing", "pulsating", "aching",
   "burning", "stabbing", "cramping", "crushing",
   "pressure", "tight", "squeezing"]

/-- `SymptomIntakeAgent._extract_character`. -/
def extract_character (message : String) : Option String :=
  character_keywords.find? (fun c => strContains message c)

/-- Keyword lists of `_extract_factors`. -/
def relieving_factor_keywords : List String :=
  ["rest", "lying down", "medication", "sleep", "dark room", "quiet"]

def aggravating_factor_keywords : List String :=
  ["movement", "exercise", "light", "noise", "eating", "lying down",
   "standing", "walking"]

/-- `SymptomIntakeAgent._extract_factors` (call sites pass either
`is_aggravating=True`, i.e. `relieving = false` here, or
`is_relieving=True`): the matching keywords in list order, possibly
empty. -/
def extract_factors (message : String) (relieving : Bool) : List String :=
  (if relieving then relieving_factor_keywords
   else aggravating_factor_keywords).filter (fun f => strContains message f)

/-- `med_keywords` of `_extract_medications`. -/
def med_keywords : List String :=
  ["paracetamol", "ibuprofen", "aspirin", "tylenol",
   "pain killer", "painkiller", "antibiotic"]

/-- `SymptomIntakeAgent._extract_medications`. -/
def extract_medications (message : String) : List String :=
  med_keywords.filter (fun m => strContains message m)

/-- `SymptomIntakeAgent._extract_previous_episodes`. -/
def extract_previous_episodes (message : String) : Bool :=
  if ["yes", "before", "again", "previous", "happened before"].any
      (fun i => strContains message i) then true
  else if ["no", "never", "first time", "never before"].any
      (fun i => strContains message i) then false
  else false

/-- The non-primary part of the `extracted` dictionary of
`extract_symptom_info` (every guard mirrors a source trigger condition or
truthiness check; all extractor outputs for `onset`, `duration`,
`location`, `character` are nonempty strings, so `if value:` is
`isSome`). -/
def extractBody (message : String) : PyDict := fun k =>
  if k = "onset" then (extract_onset message).map .vstr
  else if k = "duration" then (extract_duration message).map .vstr
  else if k = "severity" then (extract_severity message).map (fun n => .vnum n)
  else if k = "location" then (extract_location message).map .vstr
  else if k = "character" then (extract_character message).map .vstr
  else if k = "aggravating_factors" then
    if ["worse", "worsen", "aggravate", "trigger"].any
        (fun w => strContains message w) then
      some (.varr ((extract_factors message false).map .astr))
    else none
  else if k = "relieving_factors" then
    if ["better", "relief", "help", "ease"].any
        (fun w => strContains message w) then
      some (.varr ((extract_factors message true).map .astr))
    else none
  else if k = "medications_tried" then
    if ["took", "tried", "medication", "drug", "pill", "paracetamol",
        "ibuprofen"].any (fun w => strContains message w) then
      match extract_medications message with
      | [] => none
      | ms => some (.varr (ms.map .astr))
    else none
  else if k = "previous_episodes" then
    if ["before", "previous", "again", "first time"].any
        (fun w => strContains message w) then
      some (.vbool (extract_previous_episodes message))
    else none
  else none

/-- The `primary_symptom` singleton dictionary of `extract_symptom_info`. -/
def primaryDict (message : String) : PyDict := fun k =>
  if k = "primary_symptom" then some (.vstr (extract_primary_symptom message))
  else none

/-- `SymptomIntakeAgent.extract_symptom_info`: the primary symptom is
extracted only when the `primary_symptom` key is absent; the remaining
field extractions are merged in (their key sets are disjoint from
`primary_symptom`), and the whole extraction overwrites `current_data`. -/
def extract_symptom_info (message : String) (current_data : PyDict) : PyDict :=
  let message_lower := pyLower message
  let extracted :=
    dictUpdate
      (if (current_data "primary_symptom").isNone then primaryDict message_lower
       else emptyDict)
      (extractBody message_lower)
  dictUpdate current_data extracted

end SymptomIntake

/-- Decidable equality of `Except` results, for evaluating the embedded
classifier on concrete inputs. -/
instance {ε α : Type} [DecidableEq ε] [DecidableEq α] : DecidableEq (Except ε α) :=
  fun a b =>
    match a, b with
    | .error e, .error f =>
      if h : e = f then .isTrue (by simp [h]) else .isFalse (by simp [h])
    | .error _, .ok _ => .isFalse (by simp)
    | .ok _, .error _ => .isFalse (by simp)
    | .ok x, .ok y =>
      if h : x = y then .isTrue (by simp [h]) else .isFalse (by simp [h])

namespace Examples

/-- The scenario record of the spec: `{primary_symptom: "chest pain",
character: "crushing", severity: 9}` (every other key absent, hence at its
`get` default). -/
def chestPain : TriageScorer.SymptomData :=
  { primary_symptom := "chest pain"
    severity := .vnum 9
    character := "crushing"
    associated_symptoms := Sum.inr []
    onset := ""
    duration := "" }

/-- A symptom record whose only red-flag phrase sits in
`associated_symptoms`: the scoring blob contains it, the `triage` re-check
blob (primary + character only) does not. -/
def assocOnlyRedFlag : TriageScorer.SymptomData :=
  { primary_symptom := ""
    severity := .vnum 0
    character := ""
    associated_symptoms := Sum.inr ["chest pain"]
    onset := ""
    duration := "" }

/-- A slot dictionary with a non-empty `question` slot already filled. -/
def filledQuestionSlots : PyDict :=
  fun k => if k = "question" then some (.vstr "where?") else none

/-- A symptom record with a non-empty `aggravating_factors` entry already
collected. -/
def filledAggravating : PyDict :=
  fun k =>
    if k = "aggravating_factors" then some (.varr [.astr "light"]) else none

end Examples

/-- If some configured red-flag phrase occurs in a text, the category scan
`_check_red_flags` finds a category. -/
theorem check_red_flags_isSome_of_phrase (text : String)
    (h : ∃ p ∈ TriageScorer.allRedFlagPhrases, strContains text p = true) :
    (TriageScorer.check_red_flags text).isSome = true := by
  obtain ⟨p, hp, hc⟩ := h
  simp only [TriageScorer.allRedFlagPhrases, List.mem_flatten, List.mem_map] at hp
  obtain ⟨l, ⟨pair, hpair, hl⟩, hpl⟩ := hp
  rw [TriageScorer.check_red_flags, Option.isSome_map', List.find?_isSome]
  refine ⟨pair, hpair, ?_⟩
  rw [List.any_eq_true]
  exact ⟨p, hl ▸ hpl, hc⟩

/-- C3: for every symptom record whose concatenated
`primary_symptom + character + associated_symptoms` blob contains one of
the fixed red-flag phrases, the rule-based `calculate_score` returns
exactly 10, for all severities, onsets, durations, vital signs and patient
metadata. -/
theorem C3_red_flag_forces_score_ten (sd : TriageScorer.SymptomData)
    (vs : Option TriageScorer.VitalSigns)
    (md : Option TriageScorer.PatientMetadata)
    (h : ∃ p ∈ TriageScorer.allRedFlagPhrases,
      strContains (TriageScorer.symptomBlob sd) p = true) :
    TriageScorer.calculate_score_rule_based sd vs md = 10 := by
  have hs := check_red_flags_isSome_of_phrase _ h
  simp [TriageScorer.calculate_score_rule_based, hs]

/-- Witness for C3 at the spec's chest-pain scenario record. -/
theorem C3_red_flag_forces_score_ten_witness :
    TriageScorer.calculate_score_rule_based Examples.chestPain none none = 10 :=
  C3_red_flag_forces_score_ten Examples.chestPain none none
    ⟨"chest pain", by decide, by decide⟩

/-- C4 counterexample: a record whose red-flag phrase ("chest pain") sits
only in `associated_symptoms`.  The scoring blob contains the phrase (so
the rule-based score is 10), yet `triage` reports
`red_flag_detected = false`, because its re-check scans only
`primary_symptom + character` — refuting the claim that every record whose
primary+character+associated blob contains a red-flag phrase gets
`red_flag_detected = True`. -/
theorem C4_counterexample :
    strContains (TriageScorer.symptomBlob Examples.assocOnlyRedFlag) "chest pain" = true ∧
    TriageScorer.calculate_score_rule_based Examples.assocOnlyRedFlag none none = 10 ∧
    (TriageScorer.triage Examples.assocOnlyRedFlag none none).red_flag_detected = false := by
  decide

/-- C4 (amended): `triage` reports `red_flag_detected = True` with the
matching category exactly when the red-flag scan of the
`primary_symptom + character` blob (not including associated symptoms)
finds a category; the spec scenario
`{primary_symptom: "chest pain", character: "crushing", severity: 9}`
yields score 10, level critical, `red_flag_detected = True`, category
cardiac. -/
theorem C4_triage_red_flag_amended :
    (∀ (sd : TriageScorer.SymptomData) (vs : Option TriageScorer.VitalSigns)
       (md : Option TriageScorer.PatientMetadata) (cat : String),
      TriageScorer.check_red_flags
          (pyLower (sd.primary_symptom ++ " " ++ sd.character)) = some cat →
      (TriageScorer.triage sd vs md).red_flag_detected = true ∧
      (TriageScorer.triage sd vs md).red_flag_category = some cat) ∧
    ((TriageScorer.triage Examples.chestPain none none).score = 10 ∧
     (TriageScorer.triage Examples.chestPain none none).triage_level = .critical ∧
     (TriageScorer.triage Examples.chestPain none none).red_flag_detected = true ∧
     (TriageScorer.triage Examples.chestPain none none).red_flag_category = some "cardiac") := by
  constructor
  · intro sd vs md cat h
    constructor
    · simp [TriageScorer.triage, h]
    · simp [TriageScorer.triage, h]
  · decide

/-- Witness for C4: the general conjunct applied to the scenario record. -/
theorem C4_triage_red_flag_amended_witness :
    (TriageScorer.triage Examples.chestPain none none).red_flag_detected = true ∧
    (TriageScorer.triage Examples.chestPain none none).red_flag_category = some "cardiac" :=
  C4_triage_red_flag_amended.1 Examples.chestPain none none "cardiac" (by decide)

/-- C5: `get_triage_level` is threshold-exact (9 and 10 map to critical, 6
through 8 to high, 3 through 5 to medium, 1 and 2 to low) and monotone in
the order low < medium < high < critical. -/
theorem C5_get_triage_level_thresholds_monotone :
    (TriageScorer.get_triage_level 9 = .critical ∧
     TriageScorer.get_triage_level 10 = .critical ∧
     TriageScorer.get_triage_level 6 = .high ∧
     TriageScorer.get_triage_level 7 = .high ∧
     TriageScorer.get_triage_level 8 = .high ∧
     TriageScorer.get_triage_level 3 = .medium ∧
     TriageScorer.get_triage_level 4 = .medium ∧
     TriageScorer.get_triage_level 5 = .medium ∧
     TriageScorer.get_triage_level 1 = .low ∧
     TriageScorer.get_triage_level 2 = .low) ∧
    ∀ s1 s2 : ℤ, s1 ≤ s2 →
      TriageScorer.levelRank (TriageScorer.get_triage_level s1) ≤
        TriageScorer.levelRank (TriageScorer.get_triage_level s2) := by
  constructor
  · decide
  · intro s1 s2 h
    unfold TriageScorer.get_triage_level
    split_ifs <;> simp [TriageScorer.levelRank] <;> omega

/-- Witness for C5's monotonicity conjunct at scores 4 ≤ 7. -/
theorem C5_get_triage_level_thresholds_monotone_witness :
    TriageScorer.levelRank (TriageScorer.get_triage_level 4) ≤
      TriageScorer.levelRank (TriageScorer.get_triage_level 7) :=
  C5_get_triage_level_thresholds_monotone.2 4 7 (by decide)

/-- C6: the vital-signs contribution is at most +3 and the metadata
contribution at most +2, whatever combination of thresholds is breached. -/
theorem C6_contribution_caps :
    (∀ v : TriageScorer.VitalSigns, TriageScorer.score_vital_signs v ≤ 3) ∧
    (∀ m : TriageScorer.PatientMetadata, TriageScorer.score_patient_metadata m ≤ 2) := by
  constructor
  · intro v
    exact min_le_right _ _
  · intro m
    exact min_le_right _ _

/-- C10: a zero vital sign or age is treated exactly like an absent one —
replacing temperature, systolic BP or pulse `0` by "absent" leaves the
vital-signs score unchanged (so temperature 0 is not scored as
hypothermia, BP 0 not as hypotension), and a patient with age 0 scores
the same as one with no age at all (no infant bonus). -/
theorem C10_zero_is_absent :
    (∀ v : TriageScorer.VitalSigns,
      TriageScorer.score_vital_signs { v with temperature := some 0 } =
        TriageScorer.score_vital_signs { v with temperature := none }) ∧
    (∀ v : TriageScorer.VitalSigns,
      TriageScorer.score_vital_signs { v with bp_systolic := some 0 } =
        TriageScorer.score_vital_signs { v with bp_systolic := none }) ∧
    (∀ v : TriageScorer.VitalSigns,
      TriageScorer.score_vital_signs { v with pulse := some 0 } =
        TriageScorer.score_vital_signs { v with pulse := none }) ∧
    (∀ m : TriageScorer.PatientMetadata,
      TriageScorer.score_patient_metadata { m with age := some 0 } =
        TriageScorer.score_patient_metadata { m with age := none }) := by
  refine ⟨fun v => ?_, fun v => ?_, fun v => ?_, fun m => ?_⟩ <;>
    simp [TriageScorer.score_vital_signs, TriageScorer.score_patient_metadata,
      TriageScorer.tempScore, TriageScorer.bpScore, TriageScorer.pulseScore,
      TriageScorer.ageScore]

/-- C1 counterexample: a response containing both a configured
prescription-dosage phrase ("take paracetamol 500mg three times daily")
and a diagnosis phrase ("you have malaria"), validated with triage level
"critical".  `_determine_action` yields ESCALATE, which has no return
branch in `_validate_rule_based`, so the code falls through to the
"response is safe" result: `is_safe = True` and action LOG — refuting
"always `is_safe=False` and BLOCK for all triage levels". -/
theorem C1_counterexample :
    SafetyValidator.contains_prescription
      (pyLower "You have malaria. Take paracetamol 500mg three times daily.") = true ∧
    (SafetyValidator.validate_rule_based "What should I do?"
      "You have malaria. Take paracetamol 500mg three times daily."
      none (some "critical")).is_safe = true ∧
    (SafetyValidator.validate_rule_based "What should I do?"
      "You have malaria. Take paracetamol 500mg three times daily."
      none (some "critical")).action ≠ .block := by
  decide

/-- C1 (amended): for every response containing a configured prescription
phrase, the rule-based `validate_response` returns `is_safe=False` with
action BLOCK, for all user messages and intents — provided the response
does not also contain a diagnosis phrase while the triage level is
"critical" (in that corner `_determine_action` escalates instead, and the
escalation falls through to the safe/LOG result). -/
theorem C1_prescription_blocked_amended
    (um resp : String) (intent tl : Option String)
    (hp : SafetyValidator.contains_prescription (pyLower resp) = true)
    (hnc : ¬(SafetyValidator.contains_diagnosis (pyLower resp) = true ∧
             tl = some "critical")) :
    (SafetyValidator.validate_rule_based um resp intent tl).is_safe = false ∧
    (SafetyValidator.validate_rule_based um resp intent tl).action = .block := by
  unfold SafetyValidator.validate_rule_based
  cases hd : SafetyValidator.contains_diagnosis (pyLower resp) <;>
    cases hg : SafetyValidator.contains_dangerous_advice (pyLower resp) <;>
      cases hs : SafetyValidator.is_within_scope (pyLower resp) <;>
        simp [hp, hd, hg, hs, SafetyValidator.determine_action] <;>
          (have hne : tl ≠ some "critical" := fun hh => hnc ⟨hd, hh⟩
           simp [hne])

/-- Witness for C1 at a concrete prescription-only response. -/
theorem C1_prescription_blocked_amended_witness :
    (SafetyValidator.validate_rule_based "What medicine should I take?"
      "Take paracetamol 500mg three times daily." none none).is_safe = false ∧
    (SafetyValidator.validate_rule_based "What medicine should I take?"
      "Take paracetamol 500mg three times daily." none none).action =
      .block :=
  C1_prescription_blocked_amended "What medicine should I take?"
    "Take paracetamol 500mg three times daily." none none (by decide)
    (by decide)

/-- C2 (code bug): with a diagnosis phrase in the response and triage
level "critical", `_determine_action` returns ESCALATE, but
`_validate_rule_based` only has return branches for BLOCK and WARN, so the
function falls through and returns the "passed all safety checks" result:
action LOG, `is_safe = True`, and an empty violation list — the violation
is silently dropped rather than escalated, contradicting both the spec and
the intent evidenced by the code's own ESCALATE computation and violation
logging. -/
theorem C2_escalate_falls_through :
    SafetyValidator.determine_action
      [.diagnosis, .scope_exceeded] (some "critical") = .escalate ∧
    (SafetyValidator.validate_rule_based "I cannot move my arm"
      "You have malaria, my friend." none (some "critical")).action = .log ∧
    (SafetyValidator.validate_rule_based "I cannot move my arm"
      "You have malaria, my friend." none (some "critical")).is_safe = true ∧
    (SafetyValidator.validate_rule_based "I cannot move my arm"
      "You have malaria, my friend." none (some "critical")).violations = [] := by
  decide

/-- C7: any message containing an emergency keyword (case-insensitive
substring) makes `classify` return `emergency` with confidence 0.98 ≥ 0.95
immediately, for every possible model output — the oracle parameter is
universally quantified, so no model call and no slot filling can affect
the result (conversation history and metadata act only through that
parameter). -/
theorem C7_emergency_short_circuit (message llmResponse : String)
    (h : ∃ kw ∈ IntentClassifier.EMERGENCY_KEYWORDS,
      strContains (pyLower message) kw = true) :
    IntentClassifier.classify message llmResponse =
      .ok ⟨.emergency, mkRat 98 100, some "Emergency keywords detected in message"⟩ ∧
    mkRat 95 100 ≤ mkRat 98 100 := by
  have hd : IntentClassifier.detect_emergency message = true := by
    rw [IntentClassifier.detect_emergency, List.any_eq_true]
    obtain ⟨kw, hk, hc⟩ := h
    exact ⟨kw, hk, hc⟩
  constructor
  · simp only [IntentClassifier.classify, hd, if_true]
    decide
  · decide

/-- Witness for C7 at the spec's Pidgin scenario message. -/
theorem C7_emergency_short_circuit_witness :
    IntentClassifier.classify "My chest dey pain me well well"
        "model output, never consulted" =
      .ok ⟨.emergency, mkRat 98 100, some "Emergency keywords detected in message"⟩ ∧
    mkRat 95 100 ≤ mkRat 98 100 :=
  C7_emergency_short_circuit "My chest dey pain me well well"
    "model output, never consulted"
    ⟨"chest dey pain me well well", by decide, by decide⟩

/-- `parsed.get("intent")` on either fallback dictionary. -/
theorem pyGet_fallback_intent (r : String) :
    IntentClassifier.pyGet (IntentClassifier.fallbackParsed r) "intent" =
      some (.vstr "general_inquiry") := rfl

/-- `parsed.get("confidence")` on either fallback dictionary. -/
theorem pyGet_fallback_confidence (r : String) :
    IntentClassifier.pyGet (IntentClassifier.fallbackParsed r) "confidence" =
      some (.vnum (mkRat 1 2)) := rfl

/-- `parsed.get("reasoning")` on either fallback dictionary. -/
theorem pyGet_fallback_reasoning (r : String) :
    IntentClassifier.pyGet (IntentClassifier.fallbackParsed r) "reasoning" =
      some (.vstr r) := rfl

/-- C8 counterexample: the model output
`{"intent": "greeting", "confidence": 0.9, "reasoning": "r"}` carries an
intent string outside the six known intents, yet `classify` returns
confidence 0.9 — the parsed confidence, not 0.5 — refuting the claim that
unknown intents come back with confidence 0.5. -/
theorem C8_counterexample :
    IntentClassifier.intentTypeOfString "greeting" = none ∧
    IntentClassifier.classify "hello"
        "\x7b\"intent\": \"greeting\", \"confidence\": 0.9, \"reasoning\": \"r\"\x7d" =
      .ok ⟨.general_inquiry, mkRat 9 10, some "r"⟩ ∧
    (mkRat 9 10 : ℚ) ≠ mkRat 1 2 := by
  decide

/-- C8 (amended): a model output with no `{...}` block or an undecodable
one defaults to `general_inquiry` with confidence 0.5 and a diagnostic
reasoning string, without raising; a decodable output with an unknown
intent string also defaults to `general_inquiry`, but its confidence is
`float(parsed.get("confidence", 0.5))` — the parsed value, not 0.5 —
(stated here for an in-range numeric confidence and a string reasoning;
a non-numeric confidence or out-of-range value instead raises). -/
theorem C8_parse_default_amended :
    (∀ message llm : String,
      IntentClassifier.detect_emergency message = false →
      (IntentClassifier.findJsonBlock llm = none ∨
       ∃ b, IntentClassifier.findJsonBlock llm = some b ∧
         IntentClassifier.jsonLoads b = none) →
      ∃ reason, (reason = "Failed to parse LLM response" ∨
                 reason = "JSON parsing error") ∧
        IntentClassifier.classify message llm =
          .ok ⟨.general_inquiry, mkRat 1 2, some reason⟩) ∧
    (∀ (message llm s r : String) (c : ℚ),
      IntentClassifier.detect_emergency message = false →
      IntentClassifier.pyGet (IntentClassifier.parse_llm_response llm) "intent" =
        some (.vstr s) →
      IntentClassifier.intentTypeOfString s = none →
      IntentClassifier.pyGet (IntentClassifier.parse_llm_response llm) "confidence" =
        some (.vnum c) →
      0 ≤ c → c ≤ 1 →
      IntentClassifier.pyGet (IntentClassifier.parse_llm_response llm) "reasoning" =
        some (.vstr r) →
      IntentClassifier.classify message llm = .ok ⟨.general_inquiry, c, some r⟩) := by
  have h0 : (0 : ℚ) ≤ mkRat 1 2 := by decide
  have h1 : (mkRat 1 2 : ℚ) ≤ 1 := by decide
  constructor
  · intro message llm hm hfail
    have hpr : ∃ reason,
        (reason = "Failed to parse LLM response" ∨ reason = "JSON parsing error") ∧
        IntentClassifier.parse_llm_response llm =
          IntentClassifier.fallbackParsed reason := by
      rcases hfail with hnone | ⟨b, hb, hj⟩
      · exact ⟨_, Or.inl rfl, by simp [IntentClassifier.parse_llm_response, hnone]⟩
      · exact ⟨_, Or.inr rfl, by simp [IntentClassifier.parse_llm_response, hb, hj]⟩
    obtain ⟨reason, hr, hpe⟩ := hpr
    refine ⟨reason, hr, ?_⟩
    simp [IntentClassifier.classify, hm, hpe, pyGet_fallback_intent,
      pyGet_fallback_confidence, pyGet_fallback_reasoning,
      IntentClassifier.intentTypeOfString, IntentClassifier.pyFloat,
      IntentClassifier.reasoningField, IntentClassifier.mkIntentResult, h0, h1]
  · intro message llm s r c hm hi hs hc hge hle hr
    simp [IntentClassifier.classify, hm, hi, hs, hc, hr,
      IntentClassifier.pyFloat, IntentClassifier.reasoningField,
      IntentClassifier.mkIntentResult, hge, hle]

/-- Witness for C8 at an output with no JSON block and at an output with
the unknown intent string "wave". -/
theorem C8_parse_default_amended_witness :
    (∃ reason, (reason = "Failed to parse LLM response" ∨
                reason = "JSON parsing error") ∧
      IntentClassifier.classify "hello" "no json here" =
        .ok ⟨.general_inquiry, mkRat 1 2, some reason⟩) ∧
    IntentClassifier.classify "hello"
        "\x7b\"intent\": \"wave\", \"confidence\": 1, \"reasoning\": \"greet\"\x7d" =
      .ok ⟨.general_inquiry, 1, some "greet"⟩ :=
  ⟨C8_parse_default_amended.1 "hello" "no json here" (by decide)
      (Or.inl (by decide)),
   C8_parse_default_amended.2 "hello"
      "\x7b\"intent\": \"wave\", \"confidence\": 1, \"reasoning\": \"greet\"\x7d"
      "wave" "greet" 1 (by decide) (by decide) (by decide) (by decide)
      (by decide) (by decide) (by decide)⟩

/-- C9 counterexample: both rule-based merges can erase an already-filled
field with an empty extraction.  For `general_inquiry`, an empty message
overwrites the non-empty `question` slot with `""`; for the symptom
intake, the message "it got worse" triggers the aggravating-factors
extraction, whose empty keyword hit list `[]` overwrites the previously
collected `["light"]` — refuting non-destructiveness. -/
theorem C9_counterexample :
    Examples.filledQuestionSlots "question" = some (.vstr "where?") ∧
    SlotFiller.extract_slots "" .general_inquiry Examples.filledQuestionSlots
      "question" = some (.vstr "") ∧
    Examples.filledAggravating "aggravating_factors" =
      some (.varr [.astr "light"]) ∧
    SymptomIntake.extract_symptom_info "it got worse" Examples.filledAggravating
      "aggravating_factors" = some (.varr []) := by
  decide

/-- C9 (amended): both rule-based merges are idempotent — applying the
same extraction to its own output yields the same record, for every
message, intent and current record.  (They are not non-destructive: an
extraction whose value for an already-filled field is empty does overwrite
it, as the counterexample shows.) -/
theorem C9_idempotent_amended :
    (∀ (m : String) (i : IntentClassifier.IntentType) (cur : PyDict),
      SlotFiller.extract_slots m i (SlotFiller.extract_slots m i cur) =
        SlotFiller.extract_slots m i cur) ∧
    (∀ (m : String) (cur : PyDict),
      SymptomIntake.extract_symptom_info m (SymptomIntake.extract_symptom_info m cur) =
        SymptomIntake.extract_symptom_info m cur) := by
  constructor
  · intro m i cur
    funext k
    simp only [SlotFiller.extract_slots, dictUpdate]
    cases hk : SlotFiller.ruleExtract m i k <;> simp [hk]
  · intro m cur
    have hB : SymptomIntake.extractBody (pyLower m) "primary_symptom" = none := rfl
    have hd1 : ((SymptomIntake.extract_symptom_info m cur) "primary_symptom").isNone
        = false := by
      simp only [SymptomIntake.extract_symptom_info, dictUpdate, hB]
      cases hc : cur "primary_symptom" with
      | none => simp [hc, SymptomIntake.primaryDict]
      | some v => simp [hc, emptyDict]
    funext k
    conv_lhs => rw [SymptomIntake.extract_symptom_info]
    simp only [hd1, Bool.false_eq_true, if_false]
    simp only [dictUpdate, emptyDict]
    cases hk : SymptomIntake.extractBody (pyLower m) k with
    | none => rfl
    | some v =>
      simp only [hk]
      conv_rhs => rw [SymptomIntake.extract_symptom_info]
      simp only [dictUpdate, hk]
